import Mathlib

/-!
Verification of the AeroForge Monte-Carlo range-analysis engine
(`src/python/aeroforge_analysis.py`) against its design specification.

The numeric model is embedded over the exact rationals `ℚ`; every
definition below transcribes the corresponding Python function or
expression from the source.  Where IEEE division-by-zero behaviour of
numpy scalars matters (the claim about a zero Breguet denominator), a
small extended-value type `NpVal` models the numpy semantics
(`±inf`/`nan` propagation through `np.minimum`/`np.maximum`).
Randomness is modelled by explicit noise draws: `np.random.randn`
produces, for each of the five sampled fields, a function from trial
index to a standard-normal draw.
-/

namespace Aeroforge

/-- The RangeModel, transcribing `aeroforge_range_calc`
(src/python/aeroforge_analysis.py lines 20–44) over `ℚ`.
`np.maximum`/`np.minimum` on scalars are `max`/`min`. -/
def aeroforge_range_calc (eta_system epack_wh_per_kg m_batt_kg m_total_kg
    g l_over_d sfc_eq harvest_kw sic_efficiency_gain cruise_hours : ℚ) : ℚ :=
  let e_pack_total_wh := epack_wh_per_kg * m_batt_kg
  let e_harvest_wh := harvest_kw * 1000 * cruise_hours
  let eta_effective := eta_system * sic_efficiency_gain
  let e_usable_wh := eta_effective * (e_pack_total_wh + e_harvest_wh)
  let r_m := e_usable_wh / (g * l_over_d * sfc_eq * m_total_kg)
  max 0 (min 50000 (r_m / 1000))

/-- The nominal parameter record `params_nom` (lines 55–65). -/
structure ParameterSet where
  eta_system : ℚ
  epack_wh_per_kg : ℚ
  m_batt_kg : ℚ
  m_total_kg : ℚ
  g : ℚ
  l_over_d : ℚ
  sfc_eq : ℚ
  harvest_kw : ℚ
  sic_efficiency_gain : ℚ
deriving DecidableEq

/-- Nominal Al-ion + SiC parameters, exactly the literals of lines 55–65. -/
def params_nom : ParameterSet :=
  ⟨0.92, 450.0, 25000.0, 80000.0, 9.80665, 22.0, 0.00015, 15.0, 1.08⟩

/-- One standard-normal draw stream per stochastic field: the model of the
five `np.random.randn(n_runs)` arrays drawn in lines 71–89. -/
structure NoiseDraws where
  zEpack : ℕ → ℚ
  zLoverD : ℕ → ℚ
  zHarvest : ℕ → ℚ
  zSic : ℕ → ℚ
  zEta : ℕ → ℚ

/-- Sampled battery specific energy, line 71–72:
`np.maximum(200, nominal * (1 + 0.25 * randn))`. -/
def sample_epack (z : NoiseDraws) (i : ℕ) : ℚ :=
  max 200 (params_nom.epack_wh_per_kg * (1 + 0.25 * z.zEpack i))

/-- Sampled lift-to-drag ratio, lines 75–76. -/
def sample_l_over_d (z : NoiseDraws) (i : ℕ) : ℚ :=
  max 15 (params_nom.l_over_d * (1 + 0.15 * z.zLoverD i))

/-- Sampled harvested power, lines 79–80. -/
def sample_harvest (z : NoiseDraws) (i : ℕ) : ℚ :=
  max 0 (params_nom.harvest_kw * (1 + 0.4 * z.zHarvest i))

/-- Sampled SiC efficiency gain, lines 83–84. -/
def sample_sic_gain (z : NoiseDraws) (i : ℕ) : ℚ :=
  max 1.0 (params_nom.sic_efficiency_gain * (1 + 0.2 * z.zSic i))

/-- Sampled system efficiency, lines 87–89:
`np.clip(nominal * (1 + 0.1 * randn), 0.7, 0.98)`. -/
def sample_eta (z : NoiseDraws) (i : ℕ) : ℚ :=
  min 0.98 (max 0.7 (params_nom.eta_system * (1 + 0.1 * z.zEta i)))

/-- The five index-aligned sample arrays (`samples` dict of lines 68–89). -/
structure SampleBatch where
  epack : List ℚ
  l_over_d : List ℚ
  harvest : List ℚ
  sic_gain : List ℚ
  eta : List ℚ
deriving DecidableEq

/-- The whole SampleBatch for `n_runs` trials. -/
def sampleBatch (n_runs : ℕ) (z : NoiseDraws) : SampleBatch :=
  ⟨(List.range n_runs).map (sample_epack z),
   (List.range n_runs).map (sample_l_over_d z),
   (List.range n_runs).map (sample_harvest z),
   (List.range n_runs).map (sample_sic_gain z),
   (List.range n_runs).map (sample_eta z)⟩

/-- Per-trial evaluation loop of lines 92–99: stochastic fields from the
samples at index `i`, the other four fields from `params_nom`,
`cruise_hours` left at its default `6`. -/
def ranges_km (n_runs : ℕ) (z : NoiseDraws) : List ℚ :=
  (List.range n_runs).map (fun i =>
    aeroforge_range_calc (sample_eta z i) (sample_epack z i)
      params_nom.m_batt_kg params_nom.m_total_kg params_nom.g
      (sample_l_over_d z i) params_nom.sfc_eq (sample_harvest z i)
      (sample_sic_gain z i) 6)

/-- The Monte-Carlo entry point `run_aeroforge_montecarlo` (lines 46–101):
returns `(samples, ranges_km, params_nom)`.  The seeded RNG is abstracted
into the explicit `NoiseDraws`. -/
def run_aeroforge_montecarlo (n_runs : ℕ) (z : NoiseDraws) :
    SampleBatch × List ℚ × ParameterSet :=
  (sampleBatch n_runs z, ranges_km n_runs z, params_nom)

/-- The spec's §4.2 floor rule, written from the spec's words: the sample
is `nominal * (1 + relative_std * z)` with the hard floor applied after
the multiplicative perturbation. -/
def spec_floor_sample (nominal rel flo z : ℚ) : ℚ :=
  max flo (nominal * (1 + rel * z))

/-- The spec's §4.2 clip rule (system efficiency): perturb, then clip into
`[lo, hi]`. -/
def spec_clip_sample (nominal rel lo hi z : ℚ) : ℚ :=
  min hi (max lo (nominal * (1 + rel * z)))

/-- The Monte-Carlo runner with the process-wide RNG state made explicit.
`np.random.seed(seed)` (line 50) replaces whatever global generator state
`s0` the process had with `seedFn seed`; the five `np.random.randn(n_runs)`
arrays of lines 71–89 are then drawn sequentially from that stream by
`randn`, each call returning the drawn array and the advanced state. -/
def run_aeroforge_montecarlo_seeded {S : Type} (seedFn : ℕ → S)
    (randn : S → ℕ → (ℕ → ℚ) × S) (n_runs : ℕ) (seed : ℕ) (s0 : S) :
    SampleBatch × List ℚ × ParameterSet :=
  let s1 := seedFn seed
  let d1 := randn s1 n_runs
  let d2 := randn d1.2 n_runs
  let d3 := randn d2.2 n_runs
  let d4 := randn d3.2 n_runs
  let d5 := randn d4.2 n_runs
  run_aeroforge_montecarlo n_runs ⟨d1.1, d2.1, d3.1, d4.1, d5.1⟩

/-- The spec's §4.1 six-step algorithm, written from the spec's own words:
`E_pack`, `E_harvest`, `eta_eff = eta_system * sic_efficiency_gain` (not
clamped to ≤ 1), `E_usable`, `R_m = E_usable / (g * l_over_d * sfc_eq *
m_total_kg)`, then convert to km and clamp to `[0, 50000]`. -/
def rangeModelSpec (eta_system epack_wh_per_kg m_batt_kg m_total_kg
    g l_over_d sfc_eq harvest_kw sic_efficiency_gain cruise_hours : ℚ) : ℚ :=
  let e_pack : ℚ := epack_wh_per_kg * m_batt_kg
  let e_harvest : ℚ := harvest_kw * 1000 * cruise_hours
  let eta_eff : ℚ := eta_system * sic_efficiency_gain
  let e_usable : ℚ := eta_eff * (e_pack + e_harvest)
  let r_m : ℚ := e_usable / (g * l_over_d * sfc_eq * m_total_kg)
  max 0 (min 50000 (r_m / 1000))

/-- Mean of a rational array, numpy convention `sum / length`. -/
def meanQ (xs : List ℚ) : ℚ := xs.sum / (xs.length : ℚ)

/-- `np.mean` (line 108): NaN on the empty array, modelled as `none`. -/
def np_mean (xs : List ℚ) : Option ℚ :=
  if xs.length = 0 then none else some (meanQ xs)

/-- The radicand of `np.std` with its default `ddof = 0`: the mean of the
squared deviations from the mean, dividing by `n`. -/
def varQ (xs : List ℚ) : ℚ :=
  ((xs.map (fun x => (x - meanQ xs) ^ 2)).sum) / (xs.length : ℚ)

/-- `np.std` (line 109): square root of `varQ`; NaN (`none`) on the empty
array. -/
noncomputable def np_std (xs : List ℚ) : Option ℝ :=
  if xs.length = 0 then none else some (Real.sqrt (varQ xs))

/-- Sum of squared deviations from the mean (the diagonal entries of the
covariance matrix inside `np.corrcoef`, up to the common `1/(n-1)`
factor). -/
def sqSum (xs : List ℚ) : ℚ :=
  (xs.map (fun x => (x - meanQ xs) ^ 2)).sum

/-- Sum of products of deviations (the off-diagonal covariance entry, up
to the same common factor). -/
def covSum (xs ys : List ℚ) : ℚ :=
  ((xs.zip ys).map (fun p => (p.1 - meanQ xs) * (p.2 - meanQ ys))).sum

/-- `np.corrcoef(x, y)[0, 1]` (line 129): `cov / (std_x * std_y)`, the
`1/(n-1)` factors cancelling.  When either vector has zero variance the
quotient is `0/0`, which numpy silently turns into NaN (the divide
warning is suppressed by line 14); modelled as `none`. -/
noncomputable def np_corrcoef (xs ys : List ℚ) : Option ℝ :=
  if sqSum xs = 0 ∨ sqSum ys = 0 then none
  else some ((covSum xs ys : ℝ) /
    (Real.sqrt (sqSum xs) * Real.sqrt (sqSum ys)))

/-- Target achievement rate (lines 114–115):
`np.sum(ranges >= t) / len(ranges) * 100`; with `len = 0` numpy's `0/0`
is NaN (`none`). -/
def targetRate (t : ℚ) (xs : List ℚ) : Option ℚ :=
  if xs.length = 0 then none
  else some (((xs.countP (fun x => decide (t ≤ x)) : ℚ) /
    (xs.length : ℚ)) * 100)

/-- `np.median` (line 110): middle element of the sorted array, or the
mean of the two middle elements for even length; NaN (`none`) on the
empty array (a suppressed warning, like `np.mean`). -/
def np_median (xs : List ℚ) : Option ℚ :=
  if xs.length = 0 then none
  else
    let s := xs.mergeSort (fun a b => decide (a ≤ b))
    let n := xs.length
    if n % 2 = 1 then some (s.getD (n / 2) 0)
    else some ((s.getD (n / 2 - 1) 0 + s.getD (n / 2) 0) / 2)

/-- `np.percentile` at a single percentage `q` on a NON-empty array,
numpy's default linear interpolation between ranked values: with the
sorted array `s` and virtual index `h = (n - 1) * q / 100`, the result
is `s[⌊h⌋] + (h - ⌊h⌋) * (s[⌈h⌉] - s[⌊h⌋])`. -/
def np_percentile (q : ℚ) (xs : List ℚ) : ℚ :=
  let s := xs.mergeSort (fun a b => decide (a ≤ b))
  let h : ℚ := ((xs.length : ℚ) - 1) * q / 100
  let lo : ℕ := (Int.floor h).toNat
  let hi : ℕ := (Int.ceil h).toNat
  s.getD lo 0 + (h - (Int.floor h : ℚ)) * (s.getD hi 0 - s.getD lo 0)

/-- On the EMPTY array `np.percentile` does not produce NaN: it raises an
IndexError, an exception — not a warning, so line 14's
`filterwarnings` does not silence it. -/
def percentile_empty_msg : String :=
  "IndexError: cannot do a non-empty take from an empty axes"

/-- The correlation mapping of lines 126–129, in the loop's field order. -/
noncomputable def correlations (samples : SampleBatch) (rkm : List ℚ) :
    List (String × Option ℝ) :=
  [("epack", np_corrcoef samples.epack rkm),
   ("l_over_d", np_corrcoef samples.l_over_d rkm),
   ("harvest", np_corrcoef samples.harvest rkm),
   ("sic_gain", np_corrcoef samples.sic_gain rkm),
   ("eta", np_corrcoef samples.eta rkm)]

/-- The summary dict returned by `analyze_results` (lines 135–139). -/
structure StatisticsSummary where
  mean : Option ℚ
  std : Option ℝ
  median : Option ℚ
  p5 : ℚ
  p95 : ℚ
  target_5k : Option ℚ
  target_10k : Option ℚ
  correlations : List (String × Option ℝ)

/-- `analyze_results` (lines 103–139).  The function performs no input
validation of its own, but it is not total: lines 108–110 compute
NaN-capable values under suppressed warnings, and then line 111's
`np.percentile(ranges_km, [5, 95])` RAISES an IndexError on the empty
array, aborting the call before the achievement rates — the one failure
point, which fires exactly when the ResultSet is empty.  On a non-empty
ResultSet the full dict is returned. -/
noncomputable def analyze_results (samples : SampleBatch) (rkm : List ℚ) :
    Except String StatisticsSummary :=
  if rkm.length = 0 then Except.error percentile_empty_msg
  else Except.ok
    ⟨np_mean rkm, np_std rkm, np_median rkm,
     np_percentile 5 rkm, np_percentile 95 rkm,
     targetRate 5000 rkm, targetRate 10000 rkm,
     correlations samples rkm⟩

/-- The population standard deviation as the spec's words describe it:
square root of the mean of squared deviations from the mean, dividing by
`n`, not `n - 1`. -/
noncomputable def population_std_spec (xs : List ℚ) : ℝ :=
  Real.sqrt ((((xs.map (fun x => (x - xs.sum / (xs.length : ℚ)) ^ 2)).sum) /
    (xs.length : ℚ) : ℚ))

/-- All-zero noise draws: a concrete `NoiseDraws` for closed instances. -/
def zero_draws : NoiseDraws :=
  ⟨fun _ => 0, fun _ => 0, fun _ => 0, fun _ => 0, fun _ => 0⟩

/-- A two-trial batch whose `epack` samples are constant (zero variance)
while every other field varies. -/
def degenerate_batch : SampleBatch :=
  ⟨[450, 450], [16, 17], [2, 3], [1.1, 1.2], [0.8, 0.9]⟩

/-- Extended value mirroring a numpy float64 scalar: finite, `±inf`, or
NaN.  Used to model what line 41's division does when the Breguet
denominator is zero (numpy emits a suppressed warning and yields
`±inf`/NaN instead of raising). -/
inductive NpVal where
  | fin : ℚ → NpVal
  | pinf : NpVal
  | ninf : NpVal
  | nan : NpVal
deriving DecidableEq

/-- Division of two finite float64 values, numpy semantics: a zero
divisor gives `+inf`, `-inf` or NaN according to the sign of the
dividend. -/
def npDivQ (a b : ℚ) : NpVal :=
  if b = 0 then
    (if 0 < a then NpVal.pinf else if a < 0 then NpVal.ninf else NpVal.nan)
  else NpVal.fin (a / b)

/-- Division of an extended value by the positive constant `1000.0`
(line 42's `r_m / 1000.0`). -/
def npDivThousand : NpVal → NpVal
  | NpVal.fin q => NpVal.fin (q / 1000)
  | NpVal.pinf => NpVal.pinf
  | NpVal.ninf => NpVal.ninf
  | NpVal.nan => NpVal.nan

/-- `np.minimum(c, x)` for finite `c`: propagates NaN, absorbs `+inf`. -/
def npMin (c : ℚ) : NpVal → NpVal
  | NpVal.fin q => NpVal.fin (min c q)
  | NpVal.pinf => NpVal.fin c
  | NpVal.ninf => NpVal.ninf
  | NpVal.nan => NpVal.nan

/-- `np.maximum(c, x)` for finite `c`: propagates NaN, absorbs `-inf`. -/
def npMax (c : ℚ) : NpVal → NpVal
  | NpVal.fin q => NpVal.fin (max c q)
  | NpVal.pinf => NpVal.pinf
  | NpVal.ninf => NpVal.fin c
  | NpVal.nan => NpVal.nan

/-- `aeroforge_range_calc` under numpy float64 semantics for the one
place they can differ from exact arithmetic: the Breguet division of
line 41 with a possibly-zero denominator. -/
def aeroforge_range_calc_np (eta_system epack_wh_per_kg m_batt_kg
    m_total_kg g l_over_d sfc_eq harvest_kw sic_efficiency_gain
    cruise_hours : ℚ) : NpVal :=
  let e_pack_total_wh := epack_wh_per_kg * m_batt_kg
  let e_harvest_wh := harvest_kw * 1000 * cruise_hours
  let eta_effective := eta_system * sic_efficiency_gain
  let e_usable_wh := eta_effective * (e_pack_total_wh + e_harvest_wh)
  let r_m := npDivQ e_usable_wh (g * l_over_d * sfc_eq * m_total_kg)
  npMax 0 (npMin 50000 (npDivThousand r_m))

/-- Clamping to km is monotone in the metre-range argument. -/
lemma clampKm_mono {x y : ℚ} (h : x ≤ y) :
    max 0 (min 50000 (x / 1000)) ≤ max 0 (min 50000 (y / 1000)) :=
  max_le_max le_rfl
    (min_le_min le_rfl ((div_le_div_iff_of_pos_right (by norm_num)).mpr h))

/-- A negative metre range clamps to `0` km. -/
lemma clampKm_neg {x : ℚ} (h : x < 0) : max 0 (min 50000 (x / 1000)) = 0 := by
  have hx : x / 1000 < 0 := div_neg_of_neg_of_pos h (by norm_num)
  rw [min_eq_right (le_of_lt (lt_of_lt_of_le hx (by norm_num)))]
  exact max_eq_left (le_of_lt hx)

/-- With a nonzero denominator the numpy-semantics model agrees with the
exact-arithmetic model: the extended values only matter at the
division-by-zero singularity. -/
lemma aeroforge_range_calc_np_fin (eta epack mb mt g lod sfc harv sic ch : ℚ)
    (h : g * lod * sfc * mt ≠ 0) :
    aeroforge_range_calc_np eta epack mb mt g lod sfc harv sic ch =
      NpVal.fin (aeroforge_range_calc eta epack mb mt g lod sfc harv sic ch) := by
  simp only [aeroforge_range_calc_np, aeroforge_range_calc, npDivQ]
  rw [if_neg h]
  simp [npDivThousand, npMin, npMax, min_comm, max_comm]

end Aeroforge

namespace Aeroforge

/-- Claim C1, counterexample: `l_over_d` sits in the denominator of the
Breguet expression of line 41, so increasing it from the nominal `22` to
`23` with all other inputs held fixed strictly decreases the returned
range — the claimed non-decrease in `l_over_d` is false. -/
theorem claim_C1_counterexample :
    aeroforge_range_calc 0.92 450.0 25000.0 80000.0 9.80665 23.0 0.00015
        15.0 1.08 6 <
      aeroforge_range_calc 0.92 450.0 25000.0 80000.0 9.80665 22.0 0.00015
        15.0 1.08 6 := by
  norm_num [aeroforge_range_calc]

/-- Claim C1, amended: with positive denominator factors and the
physically nonnegative signs (`0 ≤ eta_system`, `0 ≤ sic_efficiency_gain`,
`0 ≤ m_batt_kg`), the returned range is non-decreasing in
`epack_wh_per_kg`, and it is non-INCREASING (not non-decreasing) in
`l_over_d`. -/
theorem claim_C1_amended (eta mb mt g sfc harv sic ch e e' l l' : ℚ)
    (hg : 0 < g) (hsfc : 0 < sfc) (hmt : 0 < mt)
    (heta : 0 ≤ eta) (hsic : 0 ≤ sic) (hmb : 0 ≤ mb)
    (hl : 0 < l) (he : e ≤ e') (hll : l ≤ l') :
    aeroforge_range_calc eta e mb mt g l sfc harv sic ch ≤
        aeroforge_range_calc eta e' mb mt g l sfc harv sic ch ∧
      aeroforge_range_calc eta e mb mt g l' sfc harv sic ch ≤
        aeroforge_range_calc eta e mb mt g l sfc harv sic ch := by
  constructor
  · unfold aeroforge_range_calc
    apply clampKm_mono
    have hD : 0 < g * l * sfc * mt := by positivity
    rw [div_le_div_iff_of_pos_right hD]
    exact mul_le_mul_of_nonneg_left
      (add_le_add_right (mul_le_mul_of_nonneg_right he hmb) _)
      (mul_nonneg heta hsic)
  · unfold aeroforge_range_calc
    set U := eta * sic * (e * mb + harv * 1000 * ch) with hU
    have hl' : 0 < l' := lt_of_lt_of_le hl hll
    have hD : 0 < g * l * sfc * mt := by positivity
    have hD' : 0 < g * l' * sfc * mt := by positivity
    rcases le_or_lt 0 U with hUpos | hUneg
    · apply clampKm_mono
      apply div_le_div_of_nonneg_left hUpos hD
      apply mul_le_mul_of_nonneg_right _ (le_of_lt hmt)
      apply mul_le_mul_of_nonneg_right _ (le_of_lt hsfc)
      exact mul_le_mul_of_nonneg_left hll (le_of_lt hg)
    · rw [clampKm_neg (div_neg_of_neg_of_pos hUneg hD),
          clampKm_neg (div_neg_of_neg_of_pos hUneg hD')]

/-- Claim C1, witness: the amended monotonicity at the nominal point,
with `epack` raised from 450 to 451 and `l_over_d` from 22 to 23. -/
theorem claim_C1_witness :
    aeroforge_range_calc 0.92 450.0 25000.0 80000.0 9.80665 22.0 0.00015
        15.0 1.08 6 ≤
      aeroforge_range_calc 0.92 451.0 25000.0 80000.0 9.80665 22.0 0.00015
        15.0 1.08 6 ∧
    aeroforge_range_calc 0.92 450.0 25000.0 80000.0 9.80665 23.0 0.00015
        15.0 1.08 6 ≤
      aeroforge_range_calc 0.92 450.0 25000.0 80000.0 9.80665 22.0 0.00015
        15.0 1.08 6 :=
  claim_C1_amended 0.92 25000.0 80000.0 9.80665 0.00015 15.0 1.08 6
    450.0 451.0 22.0 23.0 (by norm_num) (by norm_num) (by norm_num)
    (by norm_num) (by norm_num) (by norm_num) (by norm_num) (by norm_num)
    (by norm_num)

/-- Claim C2: `aeroforge_range_calc` computes exactly the spec's §4.1
six-step closed form, and on the nominal ParameterSet of §6 (with
`cruise_hours = 6`) its value is within `1/100` of 4.35 km. -/
theorem claim_C2 :
    (∀ eta epack mb mt g lod sfc harv sic ch : ℚ,
        aeroforge_range_calc eta epack mb mt g lod sfc harv sic ch =
          rangeModelSpec eta epack mb mt g lod sfc harv sic ch) ∧
      |aeroforge_range_calc params_nom.eta_system params_nom.epack_wh_per_kg
          params_nom.m_batt_kg params_nom.m_total_kg params_nom.g
          params_nom.l_over_d params_nom.sfc_eq params_nom.harvest_kw
          params_nom.sic_efficiency_gain 6 - 4.35| ≤ 1 / 100 := by
  constructor
  · intro eta epack mb mt g lod sfc harv sic ch
    rfl
  · norm_num [aeroforge_range_calc, params_nom, abs_le]

/-- Claim C3: for every input the returned range lies in `[0, 50000]` km —
the clamp of line 42 makes the result never negative and never above
50000. -/
theorem claim_C3 (eta epack mb mt g lod sfc harv sic ch : ℚ) :
    0 ≤ aeroforge_range_calc eta epack mb mt g lod sfc harv sic ch ∧
      aeroforge_range_calc eta epack mb mt g lod sfc harv sic ch ≤ 50000 := by
  unfold aeroforge_range_calc
  exact ⟨le_max_left 0 _, max_le (by norm_num) (min_le_left _ _)⟩

/-- Claim C6: every value in every SampleBatch respects its field's
floor/clip — pack specific energy ≥ 200, lift-to-drag ≥ 15, harvested
power ≥ 0, SiC gain ≥ 1.0, system efficiency in `[0.70, 0.98]` — for
every trial count and every sequence of normal draws. -/
theorem claim_C6 (n : ℕ) (z : NoiseDraws) :
    ((sampleBatch n z).epack.all (fun x => decide (200 ≤ x)) = true) ∧
      ((sampleBatch n z).l_over_d.all (fun x => decide (15 ≤ x)) = true) ∧
      ((sampleBatch n z).harvest.all (fun x => decide (0 ≤ x)) = true) ∧
      ((sampleBatch n z).sic_gain.all (fun x => decide (1 ≤ x)) = true) ∧
      ((sampleBatch n z).eta.all
        (fun x => decide (0.7 ≤ x ∧ x ≤ 0.98)) = true) := by
  refine ⟨?_, ?_, ?_, ?_, ?_⟩ <;>
    simp only [sampleBatch, List.all_eq_true, List.mem_map, List.mem_range,
      decide_eq_true_eq] <;>
    rintro x ⟨i, -, rfl⟩
  · exact le_max_left _ _
  · exact le_max_left _ _
  · exact le_max_left _ _
  · unfold sample_sic_gain
    exact le_trans (by norm_num) (le_max_left 1.0 _)
  · unfold sample_eta
    exact ⟨le_min (by norm_num) (le_max_left _ _), min_le_left _ _⟩

/-- Claim C7: each stochastic field's sample `i` is exactly the spec's
floor/clip of `nominal * (1 + relative_std * z_i)` with relative std-devs
25% (pack energy), 15% (lift-to-drag), 40% (harvest), 20% (SiC gain),
10% (system efficiency), the bound applied after the perturbation; and
each trial's range is evaluated with battery mass, total mass, gravity
and specific fuel consumption at their nominal values. -/
theorem claim_C7 (n : ℕ) (z : NoiseDraws) :
    (sampleBatch n z).epack = (List.range n).map
        (fun i => spec_floor_sample params_nom.epack_wh_per_kg 0.25 200
          (z.zEpack i)) ∧
      (sampleBatch n z).l_over_d = (List.range n).map
        (fun i => spec_floor_sample params_nom.l_over_d 0.15 15
          (z.zLoverD i)) ∧
      (sampleBatch n z).harvest = (List.range n).map
        (fun i => spec_floor_sample params_nom.harvest_kw 0.4 0
          (z.zHarvest i)) ∧
      (sampleBatch n z).sic_gain = (List.range n).map
        (fun i => spec_floor_sample params_nom.sic_efficiency_gain 0.2 1.0
          (z.zSic i)) ∧
      (sampleBatch n z).eta = (List.range n).map
        (fun i => spec_clip_sample params_nom.eta_system 0.1 0.7 0.98
          (z.zEta i)) ∧
      ranges_km n z = (List.range n).map (fun i =>
        aeroforge_range_calc
          (spec_clip_sample params_nom.eta_system 0.1 0.7 0.98 (z.zEta i))
          (spec_floor_sample params_nom.epack_wh_per_kg 0.25 200 (z.zEpack i))
          params_nom.m_batt_kg params_nom.m_total_kg params_nom.g
          (spec_floor_sample params_nom.l_over_d 0.15 15 (z.zLoverD i))
          params_nom.sfc_eq
          (spec_floor_sample params_nom.harvest_kw 0.4 0 (z.zHarvest i))
          (spec_floor_sample params_nom.sic_efficiency_gain 0.2 1.0 (z.zSic i))
          6) :=
  ⟨rfl, rfl, rfl, rfl, rfl, rfl⟩

/-- Claim C9: the run is deterministic in `(n_runs, seed)` — the global
RNG state the process had before the call is overwritten by
`np.random.seed(seed)`, so two invocations with the same `n_runs` and
`seed` return identical SampleBatch, ResultSet and ParameterSet whatever
generator states `s0`, `s0'` they start from. -/
theorem claim_C9 {S : Type} (seedFn : ℕ → S) (randn : S → ℕ → (ℕ → ℚ) × S)
    (n_runs seed : ℕ) (s0 s0' : S) :
    run_aeroforge_montecarlo_seeded seedFn randn n_runs seed s0 =
      run_aeroforge_montecarlo_seeded seedFn randn n_runs seed s0' := rfl

/-- Claim C4, counterexample: with `n_runs = 0` the Monte-Carlo entry
point does not raise anything — it silently returns empty sample arrays
and an empty result array (the source has no `raise` and no check on
`n_runs`); and what the aggregator then aborts with is not an
InvalidInput validation error but `np.percentile`'s own IndexError from
line 111, after `np.mean` has already silently produced NaN. -/
theorem claim_C4_counterexample :
    run_aeroforge_montecarlo 0 zero_draws =
        (⟨[], [], [], [], []⟩, [], params_nom) ∧
      np_mean (run_aeroforge_montecarlo 0 zero_draws).2.1 = none ∧
      analyze_results (run_aeroforge_montecarlo 0 zero_draws).1
          (run_aeroforge_montecarlo 0 zero_draws).2.1 =
        Except.error percentile_empty_msg :=
  ⟨rfl, rfl, rfl⟩

/-- Claim C4, amended: when `n_runs = 0` the entry point performs no
validation and silently returns empty SampleBatch and ResultSet; the
aggregator does then abort, but not with an InvalidInput error: lines
108–110 produce NaN (`none`) mean, standard deviation and median under
suppressed warnings, and the call dies on line 111's unhandled
IndexError from `np.percentile` on the empty array. -/
theorem claim_C4_amended (z : NoiseDraws) :
    run_aeroforge_montecarlo 0 z = (⟨[], [], [], [], []⟩, [], params_nom) ∧
      np_mean (run_aeroforge_montecarlo 0 z).2.1 = none ∧
      np_std (run_aeroforge_montecarlo 0 z).2.1 = none ∧
      np_median (run_aeroforge_montecarlo 0 z).2.1 = none ∧
      analyze_results (run_aeroforge_montecarlo 0 z).1
          (run_aeroforge_montecarlo 0 z).2.1 =
        Except.error percentile_empty_msg :=
  ⟨rfl, rfl, rfl, rfl, rfl⟩

/-- Claim C5, counterexample: calling the RangeModel at the nominal
parameters with `g = 0` — a zero Breguet denominator — yields the
numeric value 50000 km (numpy turns the division into `+inf`, the
suppressed-warning clamp then coerces it): no InvalidInput error is
surfaced. -/
theorem claim_C5_counterexample :
    aeroforge_range_calc_np 0.92 450.0 25000.0 80000.0 0 22.0 0.00015
        15.0 1.08 6 = NpVal.fin 50000 := by
  simp only [aeroforge_range_calc_np, npDivQ]
  norm_num [npDivThousand, npMin, npMax]

/-- Claim C5, amended: the RangeModel has no denominator guard; whenever
`g * l_over_d * sfc_eq * m_total_kg = 0` and the usable energy is
positive, the numpy evaluation silently coerces the `+inf` quotient into
the numeric result 50000 km instead of surfacing an error. -/
theorem claim_C5_amended (eta epack mb mt g lod sfc harv sic ch : ℚ)
    (hden : g * lod * sfc * mt = 0)
    (hpos : 0 < eta * sic * (epack * mb + harv * 1000 * ch)) :
    aeroforge_range_calc_np eta epack mb mt g lod sfc harv sic ch =
      NpVal.fin 50000 := by
  simp only [aeroforge_range_calc_np, npDivQ]
  rw [if_pos hden, if_pos hpos]
  norm_num [npDivThousand, npMin, npMax]

/-- Claim C5, witness: the amended statement at the nominal parameters
with `g = 0`. -/
theorem claim_C5_witness :
    aeroforge_range_calc_np 0.92 450.0 25000.0 80000.0 0 22.0 0.00015
        15.0 1.08 6 = NpVal.fin 50000 :=
  claim_C5_amended 0.92 450.0 25000.0 80000.0 0 22.0 0.00015 15.0 1.08 6
    (by norm_num) (by norm_num)

/-- Claim C8, counterexample: on a batch whose `epack` samples are
constant, `analyze_results` does not fail — it returns (`Except.ok`) the
full five-entry correlation mapping, with NaN (`none`) recorded for the
degenerate field. -/
theorem claim_C8_counterexample :
    (analyze_results degenerate_batch [1, 2]).map
        (fun s => s.correlations.head?) =
      Except.ok (some ("epack", (none : Option ℝ))) ∧
      (analyze_results degenerate_batch [1, 2]).map
        (fun s => s.correlations.length) = Except.ok 5 := by
  have hnc : np_corrcoef ([450, 450] : List ℚ) [1, 2] = none := by
    unfold np_corrcoef
    rw [if_pos (Or.inl (by norm_num [sqSum, meanQ]))]
  constructor
  · simp only [analyze_results, List.length_cons, List.length_nil]
    rw [if_neg (by norm_num)]
    simp only [Except.map, correlations, degenerate_batch, List.head?, hnc]
  · simp only [analyze_results, List.length_cons, List.length_nil]
    rw [if_neg (by norm_num)]
    simp only [Except.map, correlations, degenerate_batch,
      List.length_cons, List.length_nil]

/-- Claim C8, amended: a zero-variance sample vector never raises: the
`np.corrcoef` coefficient for such a field is NaN (`none`), stored
silently in the returned mapping. -/
theorem claim_C8_amended (xs ys : List ℚ)
    (h : sqSum xs = 0 ∨ sqSum ys = 0) :
    np_corrcoef xs ys = none := by
  unfold np_corrcoef
  rw [if_pos h]

/-- Claim C8, witness: the amended statement on a constant vector. -/
theorem claim_C8_witness : np_corrcoef [1, 1] [1, 2] = none :=
  claim_C8_amended [1, 1] [1, 2] (Or.inl (by norm_num [sqSum, meanQ]))

/-- Claim C10: the summary's `std` is the population standard deviation —
the square root of the mean of squared deviations from the mean, with the
divisor `n` (numpy's default `ddof = 0`), not `n - 1`; on `[0, 2]` it
evaluates to `1` (the `n - 1` convention would give `√2`). -/
theorem claim_C10 :
    (∀ (samples : SampleBatch) (xs : List ℚ), xs ≠ [] →
        (analyze_results samples xs).map (fun s => s.std) =
          Except.ok (some (population_std_spec xs))) ∧
      (analyze_results ⟨[], [], [], [], []⟩ [0, 2]).map (fun s => s.std) =
        Except.ok (some (1 : ℝ)) := by
  constructor
  · intro samples xs hxs
    unfold analyze_results
    rw [if_neg (by simpa using hxs)]
    simp only [Except.map]
    show Except.ok (np_std xs) = _
    unfold np_std population_std_spec varQ meanQ
    rw [if_neg (by simpa using hxs)]
  · unfold analyze_results
    rw [if_neg (by norm_num)]
    simp only [Except.map]
    show Except.ok (np_std [0, 2]) = _
    unfold np_std varQ meanQ
    norm_num

/-- Claim C10, witness: the population-standard-deviation equation at the
concrete ResultSet `[0, 2]`. -/
theorem claim_C10_witness :
    (analyze_results ⟨[], [], [], [], []⟩ [0, 2]).map (fun s => s.std) =
      Except.ok (some (population_std_spec [0, 2])) :=
  claim_C10.1 ⟨[], [], [], [], []⟩ [0, 2] (by simp)

end Aeroforge
